import Mathlib

/-!
Shallow embedding of the per-tenant playback orchestration engine of
`src/bot.py` (a multi-tenant audio-queue bot): the data model
(`Song`, `GuildPlayer`), the playback driver (`play_next`), the command
handlers (`play`, `skip`, `stop`), the voice-connection manager
(`ensure_voice`), the idle-disconnect scheduler, the resolver fallback
chain (`extract_song`), and the Spotify catalog expander
(`spotify_queries_from_url`).  External collaborators (the Discord
gateway, yt-dlp, the Spotify API, FFmpeg) are modelled as explicit
parameters describing their observable behaviour at the call site.
-/

namespace Bot

/-- `MAX_SPOTIFY_TRACKS = 25` (src/bot.py line 30). -/
def MAX_SPOTIFY_TRACKS : Nat := 25

/-- `IDLE_TIMEOUT_SECONDS = 60 * 60` (src/bot.py line 31). -/
def IDLE_TIMEOUT_SECONDS : Nat := 60 * 60

/-- The `Song` dataclass (src/bot.py lines 62-67). -/
structure Song where
  title : String
  stream_url : String
  webpage_url : String
  requester_id : Nat
deriving DecidableEq, Repr

/-- Observable state of a `discord.VoiceClient` as consulted by the bot:
`is_connected()`, `is_playing()`, `is_paused()`, and `channel`
(channels are identified by an opaque `Nat`). -/
structure VoiceClient where
  connected : Bool
  playing : Bool
  paused : Bool
  channel : Nat
deriving DecidableEq, Repr

/-- The mutable per-guild state of `GuildPlayer` (src/bot.py lines 70-76):
the FIFO `queue` (a `deque` used with `append`/`popleft`), `now_playing`,
and whether an idle-disconnect task is currently scheduled (`idle_task`
is not `None` and not yet cancelled).  The two `asyncio.Lock` objects are
not data; lock discipline is modelled separately by event traces. -/
structure GuildPlayer where
  queue : List Song
  now_playing : Option Song
  idle_armed : Bool
deriving DecidableEq, Repr

/-- `player.queue.append(song)` (src/bot.py lines 460 and 490). -/
def enqueue (song : Song) (p : GuildPlayer) : GuildPlayer :=
  { p with queue := p.queue ++ [song] }

/-- The observable outcome of awaiting `play_next`: either the call
returns (having released `player.lock`), leaving the given player state
and having handed the given song, if any, to the transcoder — or the
task never returns.  The latter happens on the attach-failure path: the
recursive `await play_next(guild)` at src/bot.py line 354 runs while the
same task still holds the non-reentrant `asyncio.Lock` acquired at line
337, so the re-invocation blocks forever at `async with player.lock:`.
`deadlock` records the tenant state at the moment the task blocks (and
the lock is held forever). -/
inductive AdvanceResult where
  | ret (p : GuildPlayer) (started : Option Song)
  | deadlock (p : GuildPlayer)
deriving DecidableEq, Repr

/-- The tenant state an `AdvanceResult` leaves behind. -/
def AdvanceResult.state : AdvanceResult → GuildPlayer
  | .ret p _ => p
  | .deadlock p => p

/-- The body of `play_next` once the lock is held and the voice client is
known to be neither playing nor paused (src/bot.py lines 341-362).
`attach_ok song` models whether `discord.FFmpegPCMAudio(song.stream_url, ...)`
constructs without raising (a local media-pipeline attach).  Empty queue:
clear `now_playing`, arm the idle scheduler, return.  Otherwise pop the
head; on a successful attach set it as `now_playing`, cancel the idle
task, hand it to `voice_client.play` and return.  On an attach failure
the code clears `now_playing` (the idle task was already cancelled at
line 348) and recursively awaits `play_next(guild)` — which immediately
blocks forever re-acquiring the non-reentrant `player.lock` this task
still holds: the call never returns, no further queue entry is examined,
and the tenant state is frozen with the failed song consumed. -/
def play_next_locked (attach_ok : Song → Bool) (p : GuildPlayer) :
    AdvanceResult :=
  match p.queue with
  | [] => .ret { p with now_playing := none, idle_armed := true } none
  | song :: rest =>
      if attach_ok song then
        .ret { p with queue := rest, now_playing := some song,
                      idle_armed := false }
          (some song)
      else
        .deadlock
          { p with queue := rest, now_playing := none, idle_armed := false }

/-- `play_next` (src/bot.py lines 331-362).  `vc` is `guild.voice_client`
at entry; if `None` the function returns immediately.  If the client
reports playing or paused, the idle task is cancelled and nothing else
happens.  Otherwise the locked body runs (see `play_next_locked`). -/
def play_next (vc : Option VoiceClient) (attach_ok : Song → Bool)
    (p : GuildPlayer) : AdvanceResult :=
  match vc with
  | none => .ret p none
  | some v =>
      if v.playing || v.paused then
        .ret { p with idle_armed := false } none
      else
        play_next_locked attach_ok p

/-- The player state after one `play_next` call (discarding which song,
if any, was handed to the transcoder). -/
def advance_state (vc : Option VoiceClient) (attach_ok : Song → Bool)
    (p : GuildPlayer) : GuildPlayer :=
  (play_next vc attach_ok p).state

/-- The sequence of songs that become `now_playing`, in order, when the
transcoder completion callback repeatedly re-enters `play_next` with no
skip/stop interference: each step runs `play_next` with the voice client
not playing (the previous stream has ended), records the started song,
and continues from the resulting state.  A round that starts nothing —
including one that never returns — ends the chain, since no stream means
no further completion callback.  `fuel` bounds the number of callback
rounds. -/
def drain (v : VoiceClient) (attach_ok : Song → Bool) :
    Nat → GuildPlayer → List Song
  | 0, _ => []
  | fuel + 1, p =>
      match play_next (some v) attach_ok p with
      | .ret p2 (some s) => s :: drain v attach_ok fuel p2
      | .ret _ none => []
      | .deadlock _ => []

/-- `vc.stop()`: the transcoder is told to stop the current stream; the
voice client then reports neither playing nor paused. -/
def VoiceClient.stop (v : VoiceClient) : VoiceClient :=
  { v with playing := false, paused := false }

/-- The three responses `skip` can send: not connected to voice
(no guild or no voice client), "Skipped.", or "Nothing is playing.". -/
inductive SkipReply where
  | notConnected
  | skipped
  | nothingPlaying
deriving DecidableEq, Repr

/-- The `skip` command handler (src/bot.py lines 510-520).  It takes the
guild's voice client (or `none` when there is no guild or no client) and
the player state; it returns the player state, the voice-client state
after the call, and the response sent.  When something is playing or
paused it calls `vc.stop()` only; otherwise it touches nothing. -/
def skip (vc : Option VoiceClient) (p : GuildPlayer) :
    GuildPlayer × Option VoiceClient × SkipReply :=
  match vc with
  | none => (p, none, .notConnected)
  | some v =>
      if v.playing || v.paused then
        (p, some v.stop, .skipped)
      else
        (p, some v, .nothingPlaying)

/-- The `stop` command handler (src/bot.py lines 523-536), for an
interaction inside a guild: clear the queue, clear `now_playing`,
stop the transcoder when playing or paused, and schedule the idle
disconnect when the client is connected.  Returns the player state and
the voice-client state after the call. -/
def stop (vc : Option VoiceClient) (p : GuildPlayer) :
    GuildPlayer × Option VoiceClient :=
  let p1 : GuildPlayer := { p with queue := [], now_playing := none }
  let vc1 : Option VoiceClient :=
    match vc with
    | none => none
    | some v => if v.playing || v.paused then some v.stop else some v
  let p2 : GuildPlayer :=
    match vc1 with
    | some v => if v.connected then { p1 with idle_armed := true } else p1
    | none => p1
  (p2, vc1)

/-! ### Idle-disconnect scheduler (src/bot.py lines 91-112) -/

/-- One armed idle-disconnect task: the time it was created and, if
`cancel_idle_disconnect` ran before the task finished, the time of the
cancellation. -/
structure IdleTimer where
  armedAt : Nat
  cancelledAt : Option Nat
deriving DecidableEq, Repr

/-- The time at which the task's `asyncio.sleep(IDLE_TIMEOUT_SECONDS)`
completes uncancelled, or `none` when the task was cancelled first
(`asyncio.CancelledError` is swallowed and nothing runs). -/
def idle_fire_time (t : IdleTimer) : Option Nat :=
  let fire := t.armedAt + IDLE_TIMEOUT_SECONDS
  match t.cancelledAt with
  | some c => if c < fire then none else some fire
  | none => some fire

/-- The re-check on firing (src/bot.py line 105): `vc and
vc.is_connected() and not vc.is_playing() and not vc.is_paused() and
not player.queue`. -/
def idle_conditions (vc : Option VoiceClient) (p : GuildPlayer) : Bool :=
  match vc with
  | some v => v.connected && !v.playing && !v.paused && p.queue.isEmpty
  | none => false

/-- The whole life of one armed idle task: if it is cancelled before the
window elapses, nothing happens; otherwise, at firing time it re-checks
the current tenant state and, if still idle, disconnects and clears
`now_playing`.  `vcAtFire`/`pAtFire` are the guild's voice client and
player state at the moment the sleep completes.  Returns the resulting
player state and the number of disconnects the task performed. -/
def idle_run (t : IdleTimer) (vcAtFire : Option VoiceClient)
    (pAtFire : GuildPlayer) : GuildPlayer × Nat :=
  match idle_fire_time t with
  | none => (pAtFire, 0)
  | some _ =>
      if idle_conditions vcAtFire pAtFire then
        ({ pAtFire with now_playing := none }, 1)
      else
        (pAtFire, 0)

/-! ### Voice connection manager: `ensure_voice` (src/bot.py lines 282-328) -/

/-- Errors raised by `ensure_voice`, by the `RuntimeError` message that
carries them in the source. -/
inductive VoiceError where
  | NotInServer
  | NoMemberInfo
  | NoVoiceChannel
  | ConnectionFailed (lastError : Option String)
  | CouldNotStayConnected
  | ChannelConflict (occupiedChannel : Nat)
deriving DecidableEq, Repr

/-- Outcome of one `voice_channel.connect(timeout=20.0, reconnect=True)`
attempt: either a raised exception message, or a voice client (which may
still report not-connected). -/
inductive ConnectAttempt where
  | raised (msg : String)
  | gave (vc : VoiceClient)
deriving DecidableEq, Repr

/-- `_connect_with_retry` (src/bot.py lines 294-304): up to 3 attempts;
an attempt that yields a connected client is returned at once; an
attempt that raises records the exception and sleeps 1.5 s; an attempt
that yields a not-connected client is simply dropped.  After 3 attempts
the last recorded exception is surfaced in a `ConnectionFailed` error. -/
def connect_with_retry (attempts : Nat → ConnectAttempt) :
    Except VoiceError VoiceClient :=
  go 0 none
where
  go (i : Nat) (lastExc : Option String) : Except VoiceError VoiceClient :=
    if i < 3 then
      match attempts i with
      | .gave vc => if vc.connected then .ok vc else go (i + 1) lastExc
      | .raised msg => go (i + 1) (some msg)
    else
      .error (.ConnectionFailed lastExc)
  termination_by 3 - i

/-- `ensure_voice` (src/bot.py lines 282-328).  `inGuild`/`memberOk`
model the interaction-context checks; `memberChannel` is the voice
channel the requesting member currently occupies; `existing` is
`guild.voice_client`; `attempts` models the gateway's responses to
successive connect attempts.  Returns the result together with the
guild's voice-client state after the call (`ChannelConflict` leaves the
existing client untouched — an active stream is never interrupted). -/
def ensure_voice (inGuild memberOk : Bool) (memberChannel : Option Nat)
    (existing : Option VoiceClient) (attempts : Nat → ConnectAttempt) :
    Except VoiceError VoiceClient × Option VoiceClient :=
  if !inGuild then (.error .NotInServer, existing)
  else if !memberOk then (.error .NoMemberInfo, existing)
  else
    match memberChannel with
    | none => (.error .NoVoiceChannel, existing)
    | some ch =>
        match existing with
        | none =>
            (match connect_with_retry attempts with
             | .error e => (.error e, none)
             | .ok vc =>
                 if !vc.connected then (.error .CouldNotStayConnected, some vc)
                 else (.ok vc, some vc))
        | some v =>
            if !v.connected then
              -- force-disconnect, then reconnect from scratch
              (match connect_with_retry attempts with
               | .error e => (.error e, none)
               | .ok vc =>
                   if !vc.connected then (.error .CouldNotStayConnected, some vc)
                   else (.ok vc, some vc))
            else if v.channel != ch then
              if v.playing || v.paused then
                (.error (.ChannelConflict v.channel), some v)
              else
                (.ok { v with channel := ch }, some { v with channel := ch })
            else
              (.ok v, some v)

/-! ### Song resolver: `extract_song` (src/bot.py lines 219-279) -/

/-- `pat` occurs as a substring of `s` (Python's `pat in s`). -/
def strContainsSub (s pat : String) : Bool :=
  (List.range (s.length + 1)).any fun i =>
    (s.toList.drop i).take pat.toList.length == pat.toList

/-- Python's `str.lower`, over the underlying character list. -/
def strLower (s : String) : String :=
  String.mk (s.data.map Char.toLower)

/-- The fields of a yt-dlp info dict that `extract_song` reads:
`url`, `title`, `webpage_url` (each possibly absent). -/
structure MediaInfo where
  title : Option String
  url : Option String
  webpage_url : Option String
deriving DecidableEq, Repr

/-- What `ydl.extract_info` produced: a single info dict, or a dict with
an `entries` list (a search / playlist result) whose entries may be
`None`. -/
inductive RawInfo where
  | single (i : MediaInfo)
  | withEntries (entries : List (Option MediaInfo))
deriving DecidableEq, Repr

/-- Outcome of one `ydl.extract_info(query, download=False)` call:
success, a raised `DownloadError` with its message, or any other
exception. -/
inductive YdlOutcome where
  | ok (info : RawInfo)
  | downloadError (msg : String)
  | otherError (msg : String)
deriving DecidableEq, Repr

/-- The resolution-layer error taxonomy, by the exception that carries it
in the source. -/
inductive ExtractError where
  | DrmProtected        -- "This video is DRM-protected and cannot be played."
  | PlatformBlocked     -- "YouTube blocked this request. Try another video."
  | ExtractionFailed    -- "Failed to fetch audio from YouTube."
  | NoResults           -- ValueError("No results found.")
  | NoStreamFound       -- ValueError("Could not get audio stream URL.")
  | Other (msg : String)
deriving DecidableEq, Repr

/-- `_extract_with_options` (src/bot.py lines 222-238): unwrap `entries`
(dropping `None` entries, failing with `NoResults` when none remain), and
classify a raised `DownloadError` by its lowercased message: "drm" maps
to `DrmProtected`, "sign in to confirm" to `PlatformBlocked`, anything
else to `ExtractionFailed`. -/
def extract_with_options : YdlOutcome → Except ExtractError MediaInfo
  | .ok (.single i) => .ok i
  | .ok (.withEntries es) =>
      match es.filterMap id with
      | [] => .error .NoResults
      | e :: _ => .ok e
  | .downloadError msg =>
      if strContainsSub (strLower msg) "drm" then .error .DrmProtected
      else if strContainsSub (strLower msg) "sign in to confirm" then
        .error .PlatformBlocked
      else .error .ExtractionFailed
  | .otherError msg => .error (.Other msg)

/-- The secondary SoundCloud query derived in `_extract` (src/bot.py
lines 259-264): for an `http...` query, use the best-effort oEmbed title
when one was recovered, else the raw query; for plain search terms, the
raw query. -/
def sc_query_of (query : String) (oembedTitle : Option String) : String :=
  if (strLower query).startsWith "http" then
    match oembedTitle with
    | some t => "scsearch1:" ++ t
    | none => "scsearch1:" ++ query
  else "scsearch1:" ++ query

/-- `_extract` (src/bot.py lines 240-267): try the primary (YouTube)
extraction; on any failure, try the secondary (SoundCloud single-result
search); if the secondary also fails — for any reason — re-raise the
original primary failure (`raise yt_exc`).  `secondary` maps the
SoundCloud query actually used to that extraction's outcome. -/
def extract_raw (primary : YdlOutcome) (query : String)
    (oembedTitle : Option String) (secondary : String → YdlOutcome) :
    Except ExtractError MediaInfo :=
  match extract_with_options primary with
  | .ok i => .ok i
  | .error e1 =>
      match extract_with_options (secondary (sc_query_of query oembedTitle)) with
      | .ok i => .ok i
      | .error _ => .error e1

/-- `extract_song` (src/bot.py lines 219-279): run `_extract`, fail with
`NoStreamFound` when the info has no usable stream url, else build the
`Song` (`requester_id` is `0` here; the command handler overwrites it). -/
def extract_song (primary : YdlOutcome) (query : String)
    (oembedTitle : Option String) (secondary : String → YdlOutcome) :
    Except ExtractError Song :=
  match extract_raw primary query oembedTitle secondary with
  | .error e => .error e
  | .ok i =>
      let stream := i.url.getD ""
      if stream = "" then .error .NoStreamFound
      else
        .ok { title := i.title.getD "Unknown title"
              stream_url := stream
              webpage_url := i.webpage_url.getD query
              requester_id := 0 }

/-! ### Catalog expander: `spotify_queries_from_url` (src/bot.py lines 157-216) -/

/-- One artist entry of a Spotify track dict: its `name` field, possibly
absent. -/
structure SpArtist where
  name : Option String
deriving DecidableEq, Repr

/-- A Spotify track dict as read by `_to_query`: `name` and `artists`
(whose entries may be `None`). -/
structure SpTrack where
  name : Option String
  artists : List (Option SpArtist)
deriving DecidableEq, Repr

/-- A playlist item dict: its `track` field, possibly `None`. -/
structure SpItem where
  track : Option SpTrack
deriving DecidableEq, Repr

/-- `_to_query` (src/bot.py lines 162-168): `None` when the track (or its
`name`) is missing or empty; otherwise `"{name} {artist_names}".strip()`
where `artist_names` joins the non-empty artist names with `", "` and
strips the result. -/
def to_query (track : Option SpTrack) : Option String :=
  let name : Option String := track.bind (·.name)
  let artists : List (Option SpArtist) := (track.map (·.artists)).getD []
  let artist_names : String :=
    (String.intercalate ", "
      ((artists.filterMap id).filterMap fun a =>
        match a.name with
        | some n => if n = "" then none else some n
        | none => none)).trim
  match name with
  | none => none
  | some n => if n = "" then none else some ((n ++ " " ++ artist_names).trim)

/-- One page of the paginated catalog API: the entries at
`[offset, offset + limit)`. -/
def page_items (catalog : List α) (limit offset : Nat) : List α :=
  (catalog.drop offset).take limit

/-- Whether the page at `offset` carries a "next page" marker: more
entries exist beyond it. -/
def page_has_next (catalog : List α) (limit offset : Nat) : Bool :=
  decide (offset + limit < catalog.length)

/-- The inner `for` loop over one page's items (src/bot.py lines 182-187
and 203-209): append each usable query; after each item, stop the page as
soon as `MAX_SPOTIFY_TRACKS` queries have accumulated. -/
def collect_queries (toQ : α → Option String) :
    List α → List String → List String
  | [], qs => qs
  | x :: xs, qs =>
      match toQ x with
      | some q =>
          if MAX_SPOTIFY_TRACKS ≤ (qs ++ [q]).length then qs ++ [q]
          else collect_queries toQ xs (qs ++ [q])
      | none =>
          if MAX_SPOTIFY_TRACKS ≤ qs.length then qs
          else collect_queries toQ xs qs

/-- The outer `while len(queries) < MAX_SPOTIFY_TRACKS` pagination loop
(src/bot.py lines 176-190 and 192-212): fetch the page at `offset`; an
empty page ends pagination; otherwise collect its queries and continue at
`offset + limit` only when the page carries a "next" marker.  `fuel`
bounds the rounds (any fuel past the catalog's own page count is
unobservable). -/
def paginate (toQ : α → Option String) (limit : Nat) (catalog : List α) :
    Nat → Nat → List String → List String
  | 0, _, qs => qs
  | fuel + 1, offset, qs =>
      if qs.length < MAX_SPOTIFY_TRACKS then
        if (page_items catalog limit offset).isEmpty then qs
        else
          if page_has_next catalog limit offset then
            paginate toQ limit catalog fuel (offset + limit)
              (collect_queries toQ (page_items catalog limit offset) qs)
          else collect_queries toQ (page_items catalog limit offset) qs
      else qs

/-- The three recognized Spotify link kinds (src/bot.py line 151). -/
inductive SpotifyKind where
  | track
  | album
  | playlist
deriving DecidableEq, Repr

/-- The catalog data behind a Spotify link, as the three API calls of
`spotify_queries_from_url` would reveal it. -/
structure SpotifyCatalog where
  trackData : Option SpTrack
  albumTracks : List (Option SpTrack)
  playlistItems : List (Option SpItem)
deriving DecidableEq, Repr

/-- The queries `spotify_queries_from_url` accumulates for each link
kind: a track emits at most one query; an album paginates `album_tracks`
with page size 50; a playlist paginates `playlist_items` with page size
100 (each item's `track` field feeds `_to_query`). -/
def spotify_queries_of_kind (kind : SpotifyKind) (cat : SpotifyCatalog) :
    List String :=
  match kind with
  | .track =>
      match to_query cat.trackData with
      | some q => [q]
      | none => []
  | .album =>
      paginate to_query 50 cat.albumTracks (cat.albumTracks.length + 1) 0 []
  | .playlist =>
      paginate (fun it => to_query (it.bind (·.track))) 100
        cat.playlistItems (cat.playlistItems.length + 1) 0 []

/-- `spotify_queries_from_url` (src/bot.py lines 157-216), after the URL
has parsed to `kind`: accumulate the queries for the link kind; zero
accumulated queries raise "No playable tracks found in that Spotify
link.". -/
def spotify_queries_from_url (kind : SpotifyKind) (cat : SpotifyCatalog) :
    Except String (List String) :=
  if (spotify_queries_of_kind kind cat).isEmpty then
    .error "No playable tracks found in that Spotify link."
  else
    .ok (spotify_queries_of_kind kind cat)

/-! ### Lock discipline of queue mutations

The spec claims the queue is mutated only under `playbackLock`
(`player.lock`).  We model each handler's control flow as a trace of
atomic events — lock acquire/release, queue mutations, await suspension
points — taken in source order, and check every queue mutation happens at
positive lock depth. -/

inductive LockEv where
  | acquire     -- enter `async with player.lock`
  | release     -- leave `async with player.lock`
  | qAppend     -- `player.queue.append(song)`
  | qPop        -- `player.queue.popleft()`
  | qClear      -- `player.queue.clear()`
  | awaitYield  -- an `await` that can suspend and interleave other tasks
deriving DecidableEq, Repr

/-- Every queue mutation in the trace occurs while the playback lock is
held (`d` is the current lock depth). -/
def queue_mutations_locked : List LockEv → Nat → Bool
  | [], _ => true
  | .acquire :: es, d => queue_mutations_locked es (d + 1)
  | .release :: es, d => queue_mutations_locked es (d - 1)
  | .qAppend :: es, d => decide (0 < d) && queue_mutations_locked es d
  | .qPop :: es, d => decide (0 < d) && queue_mutations_locked es d
  | .qClear :: es, d => decide (0 < d) && queue_mutations_locked es d
  | .awaitYield :: es, d => queue_mutations_locked es d

/-- The event trace of `play_next` (src/bot.py lines 331-362): the whole
body runs under `async with player.lock`; `pops` tells whether the
queue-pop branch is taken. -/
def play_next_trace (pops : Bool) : List LockEv :=
  [.acquire] ++ (if pops then [.qPop] else []) ++ [.release]

/-- The event trace of the non-Spotify branch of `play` (src/bot.py
lines 486-491): `await extract_song(query)`, then
`player.queue.append(song)` — with no lock acquired — then
`await play_next(...)`. -/
def play_single_trace (pops : Bool) : List LockEv :=
  [.awaitYield, .qAppend] ++ play_next_trace pops

/-- The event trace of the Spotify branch of `play` (src/bot.py lines
448-468) with `n` successfully resolved tracks: the catalog expansion in
a worker thread, then per track `await extract_song(...)` followed by
`player.queue.append(song)` — no lock is held at any append, and the
awaits between appends can interleave other tasks — then
`await play_next(...)`. -/
def play_batch_trace (n : Nat) (pops : Bool) : List LockEv :=
  [.awaitYield]
    ++ (List.replicate n [LockEv.awaitYield, LockEv.qAppend]).flatten
    ++ play_next_trace pops

/-- The event trace of `stop` up to its queue effects (src/bot.py line
529): `player.queue.clear()` with no lock held. -/
def stop_trace : List LockEv :=
  [.qClear]

/-! ### Concrete sample data for witnesses and counterexamples -/

def songA : Song := ⟨"a", "ua", "wa", 0⟩

def songB : Song := ⟨"b", "ub", "wb", 0⟩

/-- A connected, silent voice client in channel 7. -/
def vcIdle : VoiceClient := ⟨true, false, false, 7⟩

/-- A connected voice client in channel 7 with an active stream. -/
def vcPlaying : VoiceClient := ⟨true, true, false, 7⟩

/-- A 30-entry playlist catalog in which exactly entry 10 (1-based)
lacks a title. -/
def catalog30 : SpotifyCatalog :=
  ⟨none, [],
   (List.range 30).map fun i =>
     some ⟨some ⟨if i = 9 then none else some ("t" ++ toString i), []⟩⟩⟩

/-- A playlist catalog with zero playable entries: an item with no
track, a missing item, and a track with no name. -/
def catalogNone : SpotifyCatalog :=
  ⟨none, [], [some ⟨none⟩, none, some ⟨some ⟨none, []⟩⟩]⟩

/-- An attach function on which every `FFmpegPCMAudio` construction
fails. -/
def attachNever : Song → Bool := fun _ => false

/-! ## Theorems -/

/-- Unfolding lemma: `play_next_locked` on an empty queue clears
`now_playing` and arms the idle scheduler. -/
theorem play_next_locked_nil (attach_ok : Song → Bool) (p : GuildPlayer)
    (h : p.queue = []) :
    play_next_locked attach_ok p =
      .ret { p with now_playing := none, idle_armed := true } none := by
  unfold play_next_locked
  split <;> simp_all

/-- Unfolding lemma: `play_next_locked` on a non-empty queue pops the
head; it starts it when the attach succeeds, and on an attach failure it
blocks forever re-acquiring the lock, with exactly the head consumed. -/
theorem play_next_locked_cons (attach_ok : Song → Bool) (p : GuildPlayer)
    (s : Song) (rest : List Song) (h : p.queue = s :: rest) :
    play_next_locked attach_ok p =
      if attach_ok s then
        .ret { p with queue := rest, now_playing := some s,
                      idle_armed := false }
          (some s)
      else
        .deadlock
          { p with queue := rest, now_playing := none,
                   idle_armed := false } := by
  unfold play_next_locked
  split <;> simp_all

/-- `foldl` of `enqueue` appends the songs to the queue in order. -/
theorem foldl_enqueue_queue (songs : List Song) :
    ∀ p : GuildPlayer,
      (songs.foldl (fun p s => enqueue s p) p).queue = p.queue ++ songs := by
  induction songs with
  | nil => intro p; simp
  | cons s rest ih =>
      intro p
      rw [List.foldl_cons, ih]
      simp [enqueue]

/-- With the voice client silent and every attach succeeding, `drain`
plays back exactly the queue, in order. -/
theorem drain_eq_queue (v : VoiceClient) (hv : v.playing = false)
    (hp : v.paused = false) :
    ∀ (l : List Song) (p : GuildPlayer), p.queue = l →
      drain v (fun _ => true) l.length p = l := by
  intro l
  induction l with
  | nil => intro p _; rfl
  | cons s rest ih =>
      intro p hq
      have hb : (v.playing || v.paused) = false := by simp [hv, hp]
      have hstep :
          play_next (some v) (fun _ => true) p =
            .ret { p with queue := rest, now_playing := some s,
                          idle_armed := false }
              (some s) := by
        simp [play_next, hb, play_next_locked_cons (fun _ => true) p s rest hq]
      show drain v (fun _ => true) (rest.length + 1) p = s :: rest
      unfold drain
      rw [hstep]
      exact congrArg (s :: ·) (ih _ rfl)

/-- C1: for every sequence of enqueue operations on one tenant with no
skip/stop interference, the order in which songs become `now_playing`
equals their enqueue order: the enqueues build the queue in order, the
completion-callback chain plays it back in exactly that order, and each
`advance` on a non-empty queue pops precisely the head and sets exactly
that song as `now_playing`. -/
theorem c1_fifo_playback (songs : List Song) (v : VoiceClient)
    (p0 : GuildPlayer) (hq : p0.queue = []) (hv : v.playing = false)
    (hp : v.paused = false) :
    (songs.foldl (fun p s => enqueue s p) p0).queue = songs ∧
    drain v (fun _ => true) songs.length
      (songs.foldl (fun p s => enqueue s p) p0) = songs ∧
    (∀ (s : Song) (rest : List Song) (p : GuildPlayer), p.queue = s :: rest →
      play_next (some v) (fun _ => true) p =
        .ret { p with queue := rest, now_playing := some s,
                      idle_armed := false }
          (some s)) := by
  have hfold : (songs.foldl (fun p s => enqueue s p) p0).queue = songs := by
    rw [foldl_enqueue_queue, hq]; rfl
  refine ⟨hfold, drain_eq_queue v hv hp songs _ hfold, ?_⟩
  intro s rest p hqp
  have hb : (v.playing || v.paused) = false := by simp [hv, hp]
  simp [play_next, hb, play_next_locked_cons (fun _ => true) p s rest hqp]

/-- Witness for C1 at a concrete two-song enqueue sequence. -/
theorem c1_fifo_playback_witness :
    drain vcIdle (fun _ => true) 2
      ([songA, songB].foldl (fun p s => enqueue s p) ⟨[], none, false⟩) =
      [songA, songB] :=
  (c1_fifo_playback [songA, songB] vcIdle ⟨[], none, false⟩ rfl rfl rfl).2.1

/-- One `advance` while the transcoder reports active or paused only
disarms the idle scheduler. -/
theorem advance_state_playing (v : VoiceClient) (attach_ok : Song → Bool)
    (p : GuildPlayer) (hv : v.playing = true ∨ v.paused = true) :
    advance_state (some v) attach_ok p = { p with idle_armed := false } := by
  have hb : (v.playing || v.paused) = true := by
    rcases hv with h | h <;> simp [h]
  unfold advance_state play_next
  simp [hb, AdvanceResult.state]

/-- C2: `advance` is idempotent while in the Playing state: with the
transcoder reporting active or paused, any positive number of repeated
`advance` calls yields the state with the idle scheduler disarmed and
everything else untouched — `now_playing` is unchanged and nothing is
popped from the queue. -/
theorem c2_advance_idempotent_playing (v : VoiceClient)
    (attach_ok : Song → Bool) (p : GuildPlayer) (n : Nat)
    (hv : v.playing = true ∨ v.paused = true) (hn : 1 ≤ n) :
    (advance_state (some v) attach_ok)^[n] p = { p with idle_armed := false } ∧
    ((advance_state (some v) attach_ok)^[n] p).queue = p.queue ∧
    ((advance_state (some v) attach_ok)^[n] p).now_playing = p.now_playing := by
  obtain ⟨m, rfl⟩ : ∃ m, n = m + 1 := ⟨n - 1, (Nat.succ_pred_eq_of_pos hn).symm⟩
  have key : ∀ m : Nat,
      (advance_state (some v) attach_ok)^[m + 1] p =
        { p with idle_armed := false } := by
    intro m
    induction m with
    | zero => simpa using advance_state_playing v attach_ok p hv
    | succ k ihk =>
        rw [Function.iterate_succ_apply', ihk,
          advance_state_playing v attach_ok _ hv]
  exact ⟨key m, by rw [key m], by rw [key m]⟩

/-- Witness for C2: two repeated advances on a playing tenant with a
queued song. -/
theorem c2_advance_idempotent_playing_witness :
    (advance_state (some vcPlaying) (fun _ => true))^[2]
        ⟨[songA], some songB, true⟩ =
      { GuildPlayer.mk [songA] (some songB) true with idle_armed := false } ∧
    ((advance_state (some vcPlaying) (fun _ => true))^[2]
        ⟨[songA], some songB, true⟩).queue = [songA] ∧
    ((advance_state (some vcPlaying) (fun _ => true))^[2]
        ⟨[songA], some songB, true⟩).now_playing = some songB :=
  c2_advance_idempotent_playing vcPlaying (fun _ => true)
    ⟨[songA], some songB, true⟩ 2 (Or.inl rfl) (by decide)

/-- C3: whenever the primary extraction fails and the secondary
(SoundCloud search) attempt also fails — for any reason — `extract_song`
surfaces the original primary failure, not the secondary one.  In
particular (see the witness) a primary failure classified as
`PlatformBlocked` is the surfaced error even when the fallback fails
differently. -/
theorem c3_fallback_surfaces_primary_error (primary : YdlOutcome)
    (query : String) (oembedTitle : Option String)
    (secondary : String → YdlOutcome) (e1 e2 : ExtractError)
    (h1 : extract_with_options primary = .error e1)
    (h2 : extract_with_options (secondary (sc_query_of query oembedTitle)) =
      .error e2) :
    extract_song primary query oembedTitle secondary = .error e1 := by
  unfold extract_song extract_raw
  rw [h1, h2]

/-- Witness for C3: a primary failure classified as `PlatformBlocked`
(a "sign in to confirm" message) with a secondary failure classified
differently (`ExtractionFailed`) surfaces `PlatformBlocked`. -/
theorem c3_fallback_surfaces_primary_error_witness :
    extract_song (.downloadError "Sign in to confirm your age") "some song"
      none (fun _ => .downloadError "connection timeout") =
      .error .PlatformBlocked :=
  c3_fallback_surfaces_primary_error
    (.downloadError "Sign in to confirm your age") "some song" none
    (fun _ => .downloadError "connection timeout")
    .PlatformBlocked .ExtractionFailed (by rfl) (by rfl)

/-- The inner page loop never grows the accumulator past
`MAX_SPOTIFY_TRACKS` when it starts strictly below it. -/
theorem collect_queries_length_le {α : Type} (toQ : α → Option String) :
    ∀ (xs : List α) (qs : List String),
      qs.length < MAX_SPOTIFY_TRACKS →
      (collect_queries toQ xs qs).length ≤ MAX_SPOTIFY_TRACKS := by
  intro xs
  induction xs with
  | nil => intro qs h; exact Nat.le_of_lt h
  | cons x xs ih =>
      intro qs h
      cases htq : toQ x with
      | some q =>
          simp only [collect_queries, htq]
          split
          · simpa using h
          · next hnot => exact ih _ (Nat.lt_of_not_le hnot)
      | none =>
          simp only [collect_queries, htq]
          split
          · exact Nat.le_of_lt h
          · exact ih _ h

/-- Pagination never grows the accumulator past `MAX_SPOTIFY_TRACKS`. -/
theorem paginate_length_le {α : Type} (toQ : α → Option String)
    (limit : Nat) (catalog : List α) :
    ∀ (fuel offset : Nat) (qs : List String),
      qs.length ≤ MAX_SPOTIFY_TRACKS →
      (paginate toQ limit catalog fuel offset qs).length ≤
        MAX_SPOTIFY_TRACKS := by
  intro fuel
  induction fuel with
  | zero => intro _ _ h; exact h
  | succ f ih =>
      intro offset qs h
      simp only [paginate]
      split
      · next hlt =>
          split
          · exact h
          · have hc := collect_queries_length_le toQ
              (page_items catalog limit offset) qs hlt
            split
            · exact ih _ _ hc
            · exact hc
      · exact h

/-- The inner page loop adds nothing when no item yields a query. -/
theorem collect_queries_all_none {α : Type} (toQ : α → Option String) :
    ∀ (xs : List α) (qs : List String), (∀ x ∈ xs, toQ x = none) →
      collect_queries toQ xs qs = qs := by
  intro xs
  induction xs with
  | nil => intro qs _; rfl
  | cons x xs ih =>
      intro qs h
      have hx : toQ x = none := h x (List.mem_cons_self x xs)
      simp only [collect_queries, hx]
      split
      · rfl
      · exact ih qs fun y hy => h y (List.mem_cons_of_mem x hy)

/-- Pagination of a catalog with no playable entry accumulates nothing. -/
theorem paginate_all_none {α : Type} (toQ : α → Option String)
    (limit : Nat) (catalog : List α) (h : ∀ x ∈ catalog, toQ x = none) :
    ∀ (fuel offset : Nat), paginate toQ limit catalog fuel offset [] = [] := by
  intro fuel
  induction fuel with
  | zero => intro _; rfl
  | succ f ih =>
      intro offset
      have hpage : ∀ x ∈ page_items catalog limit offset, toQ x = none :=
        fun x hx =>
          h x (List.drop_subset offset catalog
            (List.take_subset limit (catalog.drop offset) hx))
      simp only [paginate]
      rw [if_pos (by decide)]
      split
      · rfl
      · rw [collect_queries_all_none toQ _ [] hpage]
        split
        · exact ih (offset + limit)
        · rfl

/-- C4 counterexample: expanding the playlist with 30 entries in which
exactly entry 10 lacks a title does NOT yield 29 queries — the claimed
count is wrong. -/
theorem c4_expansion_count_counterexample :
    (spotify_queries_from_url .playlist catalog30).toOption.map List.length ≠
      some 29 := by
  decide

/-- C4 as amended: expanding the 30-entry playlist in which exactly
entry 10 lacks a title yields 25 queries (the `MAX_SPOTIFY_TRACKS` hard
cap, reached because entries missing a usable title are skipped without
failing the batch while the rest keep accumulating); a playlist with 0
playable entries fails with the `NoPlayableTracks` error; and no
expansion ever yields more than 25 queries. -/
theorem c4_expansion_amended :
    (spotify_queries_from_url .playlist catalog30).toOption.map List.length =
      some 25 ∧
    (∀ cat : SpotifyCatalog,
      (∀ it ∈ cat.playlistItems, to_query (it.bind (·.track)) = none) →
      spotify_queries_from_url .playlist cat =
        .error "No playable tracks found in that Spotify link.") ∧
    (∀ (kind : SpotifyKind) (cat : SpotifyCatalog) (qs : List String),
      spotify_queries_from_url kind cat = .ok qs →
      qs.length ≤ MAX_SPOTIFY_TRACKS) := by
  refine ⟨by decide, ?_, ?_⟩
  · intro cat h
    unfold spotify_queries_from_url spotify_queries_of_kind
    rw [paginate_all_none (fun it => to_query (it.bind (·.track))) 100
      cat.playlistItems h (cat.playlistItems.length + 1) 0]
    rfl
  · intro kind cat qs hok
    unfold spotify_queries_from_url at hok
    split at hok
    · cases hok
    · injection hok with hq
      subst hq
      cases kind with
      | track =>
          unfold spotify_queries_of_kind
          cases to_query cat.trackData <;> simp [MAX_SPOTIFY_TRACKS]
      | album =>
          exact paginate_length_le to_query 50 cat.albumTracks _ 0 []
            (by decide)
      | playlist =>
          exact paginate_length_le (fun it => to_query (it.bind (·.track)))
            100 cat.playlistItems _ 0 [] (by decide)

/-- Witness for the amended C4 at a concrete zero-playable playlist. -/
theorem c4_expansion_amended_witness :
    spotify_queries_from_url .playlist catalogNone =
      .error "No playable tracks found in that Spotify link." :=
  c4_expansion_amended.2.1 catalogNone (by decide)

/-- C5 counterexample: in the trace of a `play` invocation that enqueues
and starts one song, the queue append happens at lock depth 0 — the
queue is not mutated only while holding `playbackLock`, and in the
two-track catalog batch the appends likewise happen with no lock held. -/
theorem c5_lock_discipline_counterexample :
    queue_mutations_locked (play_single_trace true) 0 = false ∧
    queue_mutations_locked (play_batch_trace 2 true) 0 = false := by
  decide

/-- C5 as amended: only `play_next` mutates the queue under
`playbackLock` (its pop); the `play` handler appends — both the single
enqueue and every append of a catalog-expanded batch — and `stop` clears
the queue with no lock held, and the batch appends are separated by
awaits, so a concurrent `advance` may interleave mid-batch. -/
theorem c5_lock_discipline_amended (pops : Bool) (n : Nat) (hn : 1 ≤ n) :
    queue_mutations_locked (play_next_trace pops) 0 = true ∧
    queue_mutations_locked (play_single_trace pops) 0 = false ∧
    queue_mutations_locked (play_batch_trace n pops) 0 = false ∧
    queue_mutations_locked stop_trace 0 = false := by
  obtain ⟨m, rfl⟩ : ∃ m, n = m + 1 := ⟨n - 1, (Nat.succ_pred_eq_of_pos hn).symm⟩
  refine ⟨?_, ?_, ?_, rfl⟩
  · cases pops <;> rfl
  · cases pops <;> rfl
  · simp [play_batch_trace, List.replicate_succ, queue_mutations_locked]

/-- Witness for the amended C5: a one-track batch that starts playback. -/
theorem c5_lock_discipline_amended_witness :
    queue_mutations_locked (play_next_trace true) 0 = true ∧
    queue_mutations_locked (play_single_trace true) 0 = false ∧
    queue_mutations_locked (play_batch_trace 1 true) 0 = false ∧
    queue_mutations_locked stop_trace 0 = false :=
  c5_lock_discipline_amended true 1 (by decide)

/-- C6: the idle-disconnect scheduler.  The window is 3600 seconds.
If the armed task is cancelled before the window elapses, no disconnect
occurs.  If the window elapses uncancelled and the re-check still finds
the tenant idle (connected, not playing, not paused, queue empty),
exactly one disconnect occurs and `now_playing` is cleared.  If the
tenant is playing at firing time, no disconnect occurs even when the
task was never cancelled (re-check-on-fire). -/
theorem c6_idle_scheduler (t : IdleTimer) (vc : Option VoiceClient)
    (p : GuildPlayer) :
    IDLE_TIMEOUT_SECONDS = 3600 ∧
    (∀ c, t.cancelledAt = some c → c < t.armedAt + IDLE_TIMEOUT_SECONDS →
      idle_run t vc p = (p, 0)) ∧
    (t.cancelledAt = none → idle_conditions vc p = true →
      idle_run t vc p = ({ p with now_playing := none }, 1)) ∧
    (∀ v, vc = some v → v.playing = true → idle_run t vc p = (p, 0)) := by
  refine ⟨rfl, ?_, ?_, ?_⟩
  · intro c hc hlt
    unfold idle_run idle_fire_time
    rw [hc]
    simp [hlt]
  · intro hc hcond
    unfold idle_run idle_fire_time
    rw [hc]
    simp [hcond]
  · intro v hv hpl
    have hcond : idle_conditions vc p = false := by
      subst hv
      simp [idle_conditions, hpl]
    unfold idle_run
    cases idle_fire_time t <;> simp [hcond]

/-- Witness for C6: an uncancelled timer firing on an idle connected
tenant disconnects once and clears `now_playing`. -/
theorem c6_idle_scheduler_witness :
    idle_run ⟨0, none⟩ (some vcIdle) ⟨[], some songA, true⟩ =
      (⟨[], none, true⟩, 1) :=
  (c6_idle_scheduler ⟨0, none⟩ (some vcIdle) ⟨[], some songA, true⟩).2.2.1
    rfl rfl

/-- C7: after `stop` completes, the queue is empty and `now_playing` is
empty; and with no new connection — the voice client, if any, is exactly
the one `stop` left behind — a subsequent `advance` immediately arms the
idle scheduler (the empty-queue branch of `play_next`). -/
theorem c7_stop_clears_then_advance_arms (vc0 : Option VoiceClient)
    (p : GuildPlayer) (attach_ok : Song → Bool) :
    (stop vc0 p).1.queue = [] ∧
    (stop vc0 p).1.now_playing = none ∧
    (∀ v, (stop vc0 p).2 = some v →
      play_next (some v) attach_ok (stop vc0 p).1 =
        .ret { (stop vc0 p).1 with now_playing := none, idle_armed := true }
          none) := by
  have hstopped : ∀ v, (stop vc0 p).2 = some v →
      v.playing = false ∧ v.paused = false := by
    intro v hv
    cases vc0 with
    | none => simp [stop] at hv
    | some v0 =>
        by_cases hpp : (v0.playing || v0.paused) = true
        · simp only [stop, hpp, if_true] at hv
          cases hv
          exact ⟨rfl, rfl⟩
        · simp only [stop, hpp, if_false] at hv
          cases hv
          simp only [Bool.or_eq_true] at hpp
          push_neg at hpp
          exact ⟨Bool.eq_false_iff.mpr hpp.1, Bool.eq_false_iff.mpr hpp.2⟩
  have hqueue : (stop vc0 p).1.queue = [] := by
    cases vc0 with
    | none => rfl
    | some v0 =>
        simp only [stop]
        split
        · split <;> rfl
        · rfl
  have hnp : (stop vc0 p).1.now_playing = none := by
    cases vc0 with
    | none => rfl
    | some v0 =>
        simp only [stop]
        split
        · split <;> rfl
        · rfl
  refine ⟨hqueue, hnp, ?_⟩
  intro v hv
  obtain ⟨hpl, hpa⟩ := hstopped v hv
  have hb : (v.playing || v.paused) = false := by simp [hpl, hpa]
  simp [play_next, hb, play_next_locked_nil attach_ok (stop vc0 p).1 hqueue]

/-- Witness for C7: stopping a playing tenant, then advancing with the
connection it left, arms the idle scheduler. -/
theorem c7_stop_clears_then_advance_arms_witness :
    play_next (some vcPlaying.stop) (fun _ => true)
        (stop (some vcPlaying) ⟨[songA], some songB, false⟩).1 =
      .ret { (stop (some vcPlaying) ⟨[songA], some songB, false⟩).1 with
             now_playing := none, idle_armed := true }
        none :=
  (c7_stop_clears_then_advance_arms (some vcPlaying)
    ⟨[songA], some songB, false⟩ (fun _ => true)).2.2 vcPlaying.stop rfl

/-- C8: `ensure_voice` with an existing connection.  To a different
channel while actively playing or paused it fails with `ChannelConflict`
naming the occupied channel and leaves the client untouched (the active
stream is never interrupted); to a different channel while idle it moves
the client to the requested channel; already at the requested channel it
returns the client unchanged. -/
theorem c8_ensure_voice_existing (v : VoiceClient) (ch : Nat)
    (attempts : Nat → ConnectAttempt) (hc : v.connected = true) :
    ((v.playing = true ∨ v.paused = true) → v.channel ≠ ch →
      ensure_voice true true (some ch) (some v) attempts =
        (.error (.ChannelConflict v.channel), some v)) ∧
    (v.playing = false → v.paused = false → v.channel ≠ ch →
      ensure_voice true true (some ch) (some v) attempts =
        (.ok { v with channel := ch }, some { v with channel := ch })) ∧
    (v.channel = ch →
      ensure_voice true true (some ch) (some v) attempts =
        (.ok v, some v)) := by
  refine ⟨?_, ?_, ?_⟩
  · intro hpp hne
    have hb : (v.playing || v.paused) = true := by
      rcases hpp with h | h <;> simp [h]
    simp [ensure_voice, hc, hne, hb]
  · intro hpl hpa hne
    simp [ensure_voice, hc, hne, hpl, hpa]
  · intro heq
    simp [ensure_voice, hc, heq]

/-- Witness for C8: a client playing in channel 7 blocks a request for
channel 5 with `ChannelConflict 7`, untouched. -/
theorem c8_ensure_voice_existing_witness :
    ensure_voice true true (some 5) (some vcPlaying)
        (fun _ => .raised "boom") =
      (.error (.ChannelConflict 7), some vcPlaying) :=
  (c8_ensure_voice_existing vcPlaying 5 (fun _ => .raised "boom") rfl).1
    (Or.inl rfl) (by decide)

/-- C9 (code bug): the claim — clear `now_playing` and re-invoke
`advance` on the next queued song, terminating after at most
queue-length re-invocations — matches the spec and the evident intent of
src/bot.py lines 349-355, but the code does not do it.  `player.lock` is
a plain non-reentrant `asyncio.Lock` (line 73); the recursive
`await play_next(guild)` at line 354 runs while the same task still
holds that lock (acquired at line 337), so the re-invocation blocks
forever at `async with player.lock:`.  Evaluating the model at the
failing input — a connected idle client, queue `[songA, songB]`, and
`FFmpegPCMAudio` raising on the first attach — shows exactly the head
consumed and the task deadlocked: the next queued song is never
examined, no retry chain exists, and the tenant's playback is wedged
with the lock held.  Afterwards the completion-callback chain plays
nothing: no stream was started, so no callback ever fires. -/
theorem c9_attach_failure_deadlocks :
    play_next (some vcIdle) attachNever ⟨[songA, songB], none, false⟩ =
      .deadlock ⟨[songB], none, false⟩ ∧
    drain vcIdle attachNever 2 ⟨[songA, songB], none, false⟩ = [] := by
  exact ⟨rfl, rfl⟩

/-- C10: the `skip` handler never mutates the player state: the queue
and `now_playing` are unchanged in every case; when something is playing
or paused it only signals the transcoder to stop, and when nothing is
playing (or there is no client) it changes nothing at all. -/
theorem c10_skip_preserves_player (vc : Option VoiceClient)
    (p : GuildPlayer) :
    (skip vc p).1 = p ∧
    (∀ v, vc = some v → (v.playing = true ∨ v.paused = true) →
      skip vc p = (p, some v.stop, .skipped)) ∧
    (∀ v, vc = some v → v.playing = false → v.paused = false →
      skip vc p = (p, some v, .nothingPlaying)) ∧
    (vc = none → skip vc p = (p, none, .notConnected)) := by
  refine ⟨?_, ?_, ?_, ?_⟩
  · cases vc with
    | none => rfl
    | some v =>
        simp only [skip]
        split <;> rfl
  · intro v hv hpp
    subst hv
    have hb : (v.playing || v.paused) = true := by
      rcases hpp with h | h <;> simp [h]
    simp [skip, hb]
  · intro v hv hpl hpa
    subst hv
    simp [skip, hpl, hpa]
  · intro hv
    subst hv
    rfl

/-- Witness for C10: skipping while playing stops the transcoder and
leaves the player untouched. -/
theorem c10_skip_preserves_player_witness :
    skip (some vcPlaying) ⟨[songA], some songB, false⟩ =
      (⟨[songA], some songB, false⟩, some vcPlaying.stop, .skipped) :=
  (c10_skip_preserves_player (some vcPlaying)
    ⟨[songA], some songB, false⟩).2.1 vcPlaying rfl (Or.inl rfl)

end Bot
